import Mathlib

/-!
Verification of the ink! storage-layout and key-derivation subsystem.

The development shallowly embeds:
* `crates/storage/src/pull_or_init.rs` — the pull-or-initialize resolution
  (`PullOrInit::pull_or_init` and the `PullOrInitFallback` default);
* `examples/proxy/upgradeable_flipper/upgradable.rs` — the `Upgradable`
  wrapper with its `Initialized` / `NotInitialized` phantom markers and its
  `SpreadLayout` / `SpreadAllocate` implementations;
* the metadata layout model exercised by `crates/metadata/src/layout/tests.rs`
  (layout tree, type registry, portable compaction and JSON rendering);
  the layout module itself is not part of the sources at hand, so those
  definitions are modelled from the specification and pinned by the
  expected values asserted in the in-repo tests.

Machine integers are modelled as `Nat`; stored byte blobs as `List Nat`;
the external key-value store as `Nat → Option (List Nat)`; Rust panics as
`Except String` errors carrying the panic message.
-/

namespace Ink

/-- A stored byte blob. -/
abbrev Bytes := List Nat

/-- The external key-value store: a partial map from keys to byte blobs. -/
abbrev Store := Nat → Option Bytes

/-- The SCALE decoding half of the store interface for a concrete type `T`:
`decode` turns a stored byte blob into a `T`, or fails. -/
structure StoreModel (T : Type) where
  decode : Bytes → Option T

/-- `ink_env::get_contract_storage::<Key, T>(key)`: returns `Ok(None)` when the
slot is absent, `Err(_)` when the slot holds bytes that do not decode as `T`,
and `Ok(Some(value))` on a successful decode. -/
def getContractStorage {T : Type} (m : StoreModel T) (st : Store) (key : Nat) :
    Except Unit (Option T) :=
  match st key with
  | none => .ok none
  | some bs =>
    match m.decode bs with
    | some v => .ok (some v)
    | none => .error ()

/-- `PullOrInit::<T>::pull_or_init(key)` for `T : OnCallInitializer`
(`pull_or_init.rs` lines 36-46): on `Ok(None) | Err(_)` build the default
value and run the initializer on it, on `Ok(Some(value))` return the value.
`dflt` models `Default::default()` and `ini` models
`OnCallInitializer::initialize` as a state transformer. -/
def pullOrInit {T : Type} (m : StoreModel T) (dflt : T) (ini : T → T)
    (st : Store) (key : Nat) : T :=
  match getContractStorage m st key with
  | .ok none | .error _ => ini dflt
  | .ok (some v) => v

/-- `PullOrInitFallback::pull_or_init(key)` (`pull_or_init.rs` lines 53-59),
used when `T` has no `OnCallInitializer` capability; the two `panic!` calls
are modelled as `Except.error` with the exact panic message. -/
def pullOrInitFallback {T : Type} (m : StoreModel T) (st : Store) (key : Nat) :
    Except String T :=
  match getContractStorage m st key with
  | .ok (some v) => .ok v
  | .ok none => .error "storage entry was empty"
  | .error _ => .error "could not properly decode storage entry"

/-- Decoder used for concrete witnesses: a `Nat` is stored as a singleton
byte blob; every other blob is malformed. -/
def natDecode : Bytes → Option Nat
  | [n] => some n
  | _ => none

/-- The concrete store model for `Nat` values. -/
def natModel : StoreModel Nat := ⟨natDecode⟩

/-- A store holding value `456` (as the blob `[456]`) at key `111`,
mirroring the `pull_or_init_works` test. -/
def storeWith456 : Store := fun k => if k = 111 then some [456] else none

/-- An empty store. -/
def emptyStore : Store := fun _ => none

/-- A store holding a malformed blob at key `111`. -/
def badStore : Store := fun k => if k = 111 then some [1, 2] else none

/-- Claim C1: for a type with the on-demand initializer capability,
`pull_or_init` returns the stored value when the store holds a decodable
entry at the key, and on absence (`Ok(None)`) or decode failure (`Err(_)`)
it returns the default value with the initializer applied; no error is
surfaced (the function is total into `T`). -/
theorem pullOrInit_with_initializer_spec (T : Type) (m : StoreModel T)
    (dflt : T) (ini : T → T) (st : Store) (key : Nat) :
    (∀ v, getContractStorage m st key = .ok (some v) →
      pullOrInit m dflt ini st key = v)
    ∧ (getContractStorage m st key = .ok none →
      pullOrInit m dflt ini st key = ini dflt)
    ∧ (getContractStorage m st key = .error () →
      pullOrInit m dflt ini st key = ini dflt) := by
  refine ⟨?_, ?_, ?_⟩ <;> intro
  case _ => intro h; simp [pullOrInit, *]
  case _ => simp [pullOrInit, *]
  case _ => simp [pullOrInit, *]

/-- Concrete instantiation of C1, mirroring the `pull_or_init_works` and
`init_works` tests: a stored `456` is pulled back, and on an empty store the
initializer (set to `123`) runs on the default value `0`. -/
theorem pullOrInit_with_initializer_spec_witness :
    pullOrInit natModel 0 (fun _ => 123) storeWith456 111 = 456
    ∧ pullOrInit natModel 0 (fun _ => 123) emptyStore 111 = 123 :=
  ⟨(pullOrInit_with_initializer_spec Nat natModel 0 (fun _ => 123)
      storeWith456 111).1 456 rfl,
   (pullOrInit_with_initializer_spec Nat natModel 0 (fun _ => 123)
      emptyStore 111).2.1 rfl⟩

/-- Claim C2, counterexample: at a slot holding undecodable bytes the
fallback aborts with the message "could not properly decode storage entry",
not with "could not decode stored entry" as the claim states. -/
theorem pullOrInitFallback_message_counterexample :
    pullOrInitFallback natModel badStore 111
      = .error "could not properly decode storage entry"
    ∧ pullOrInitFallback natModel badStore 111
      ≠ .error "could not decode stored entry" := by
  refine ⟨rfl, fun h => ?_⟩
  exact absurd (Except.error.inj h) (by decide)

/-- Claim C2 (amended): for a type without the initializer capability the
fallback `pull_or_init` returns the stored value on a successful read,
aborts with "storage entry was empty" when the slot is absent, and aborts
with "could not properly decode storage entry" on a decode failure; neither
failure is recovered at this layer. -/
theorem pullOrInitFallback_spec (T : Type) (m : StoreModel T)
    (st : Store) (key : Nat) :
    (∀ v, getContractStorage m st key = .ok (some v) →
      pullOrInitFallback m st key = .ok v)
    ∧ (getContractStorage m st key = .ok none →
      pullOrInitFallback m st key = .error "storage entry was empty")
    ∧ (getContractStorage m st key = .error () →
      pullOrInitFallback m st key
        = .error "could not properly decode storage entry") := by
  refine ⟨?_, ?_, ?_⟩ <;> intro
  case _ => intro h; simp [pullOrInitFallback, *]
  case _ => simp [pullOrInitFallback, *]
  case _ => simp [pullOrInitFallback, *]

/-- Concrete instantiation of C2 (amended), mirroring the `pull_works` and
`pull_or_init_fails` tests plus the decode-failure branch. -/
theorem pullOrInitFallback_spec_witness :
    pullOrInitFallback natModel storeWith456 111 = .ok 456
    ∧ pullOrInitFallback natModel emptyStore 111
      = .error "storage entry was empty"
    ∧ pullOrInitFallback natModel badStore 111
      = .error "could not properly decode storage entry" :=
  ⟨(pullOrInitFallback_spec Nat natModel storeWith456 111).1 456 rfl,
   (pullOrInitFallback_spec Nat natModel emptyStore 111).2.1 rfl,
   (pullOrInitFallback_spec Nat natModel badStore 111).2.2 rfl⟩

/-- A `KeyPtr` (cursor): wraps the current key and advances across a
contiguous run of keys as values are laid out. -/
structure KeyPtr where
  key : Nat
deriving DecidableEq

/-- `KeyPtr::advance_by(n)`: step the cursor forward by `n` slots. -/
def KeyPtr.advance (p : KeyPtr) (n : Nat) : KeyPtr := ⟨p.key + n⟩

/-- The `SpreadLayout` contract for a type `T`: footprint, deep-clean-up
flag, and pull/push/clear threading a store and a cursor. A pull may fail
(a panic inside the traversal), modelled as `Except String`. -/
structure SpreadLayoutImpl (T : Type) where
  footprint : Nat
  requiresDeepCleanUp : Bool
  pullSpread : Store → KeyPtr → Except String (T × KeyPtr)
  pushSpread : T → Store → KeyPtr → Store × KeyPtr
  clearSpread : T → Store → KeyPtr → Store × KeyPtr

/-- The round-trip law of the spread contract: pulling from the starting
cursor out of the store produced by a push returns the pushed value and
leaves the cursor where the push left it. -/
def RoundTrip {T : Type} (sl : SpreadLayoutImpl T) : Prop :=
  ∀ (v : T) (st : Store) (ptr : KeyPtr),
    sl.pullSpread (sl.pushSpread v st ptr).1 ptr
      = .ok (v, (sl.pushSpread v st ptr).2)

/-- The `Initialized` phantom marker (`pub struct Initialized;`). -/
inductive Initialized where
  | mk

/-- The `NotInitialized` phantom marker (`pub struct NotInitialized;`). -/
inductive NotInitialized where
  | mk

/-- `Upgradable<T, InitializationStatus>`: a wrapper holding `inner : T`
plus a `PhantomData` marker, which holds no data at runtime — here the
marker survives only as the unused type parameter `State`. -/
structure Upgradable (T : Type) (State : Type) where
  inner : T

/-- Modelled from the spec: `Modelled from the spec:` the SCALE `Encode`
derive for `Upgradable` (the `scale::Encode` implementation is generated by
an external derive, absent from the sources): a derived struct encoding is
the concatenation of its fields' encodings, and the `PhantomData` status
field contributes no runtime bytes. -/
def Upgradable.encode {T State : Type} (enc : T → Bytes)
    (u : Upgradable T State) : Bytes :=
  enc u.inner ++ ([] : Bytes)

/-- `SpreadLayout for Upgradable<T, Initialized>` (`upgradable.rs` lines
38-53): constants are inherited from `T`; `pull_spread` pulls `T` and wraps
it; `push_spread` / `clear_spread` delegate to the inner value. -/
def upgradableSpreadLayoutInit {T : Type} (sl : SpreadLayoutImpl T) :
    SpreadLayoutImpl (Upgradable T Initialized) where
  footprint := sl.footprint
  requiresDeepCleanUp := sl.requiresDeepCleanUp
  pullSpread st ptr := (sl.pullSpread st ptr).map fun vp => (⟨vp.1⟩, vp.2)
  pushSpread u st ptr := sl.pushSpread u.inner st ptr
  clearSpread u st ptr := sl.clearSpread u.inner st ptr

/-- `SpreadLayout for Upgradable<T, NotInitialized>` (`upgradable.rs` lines
55-77): `pull_spread` first probes the store at the cursor's key with
`get_contract_storage::<T>`, `.expect("could not properly decode storage
entry")` on a read error; if the probe found nothing it allocates via
`SpreadAllocate` (which never reads the store), otherwise it pulls the
stored value; `push_spread` / `clear_spread` delegate to the inner value.
`alloc` models `<T as SpreadAllocate>::allocate_spread`. -/
def upgradableSpreadLayoutNotInit {T : Type} (m : StoreModel T)
    (alloc : KeyPtr → T × KeyPtr) (sl : SpreadLayoutImpl T) :
    SpreadLayoutImpl (Upgradable T NotInitialized) where
  footprint := sl.footprint
  requiresDeepCleanUp := sl.requiresDeepCleanUp
  pullSpread st ptr :=
    match getContractStorage m st ptr.key with
    | .error _ => .error "could not properly decode storage entry"
    | .ok none => .ok (⟨(alloc ptr).1⟩, (alloc ptr).2)
    | .ok (some _) => (sl.pullSpread st ptr).map fun vp => (⟨vp.1⟩, vp.2)
  pushSpread u st ptr := sl.pushSpread u.inner st ptr
  clearSpread u st ptr := sl.clearSpread u.inner st ptr

/-- Modelled from the spec: `Modelled from the spec:` the packed-leaf
`SpreadLayout` instance for a one-slot value (§4.1/§4.2: a leaf field
consumes one slot; pull reads the slot and decodes its blob, push writes
the value's encoding to the slot, clear removes the slot; each advances the
cursor by the footprint, 1). The concrete element type is `Nat` with the
singleton-blob codec `natDecode`. -/
def packedLeafLayout : SpreadLayoutImpl Nat where
  footprint := 1
  requiresDeepCleanUp := false
  pullSpread st ptr :=
    match st ptr.key with
    | none => .error "storage entry was empty"
    | some bs =>
      match natDecode bs with
      | some v => .ok (v, ptr.advance 1)
      | none => .error "could not properly decode storage entry"
  pushSpread v st ptr :=
    (fun k => if k = ptr.key then some [v] else st k, ptr.advance 1)
  clearSpread _ st ptr :=
    (fun k => if k = ptr.key then none else st k, ptr.advance 1)

/-- The packed-leaf instance satisfies the round-trip law. -/
theorem packedLeafLayout_roundTrip : RoundTrip packedLeafLayout := by
  intro v st ptr
  simp [packedLeafLayout, natDecode]

/-- Claim C3: the round-trip law holds for the modelled packed leaf
persistence, and the `Upgradable<_, Initialized>` wrapper preserves it:
whenever the inner type's spread implementation satisfies push-then-pull
round-tripping from the same starting key, so does the wrapper's,
reproducing an equal inner value. -/
theorem spread_roundTrip_spec :
    RoundTrip packedLeafLayout
    ∧ ∀ (T : Type) (sl : SpreadLayoutImpl T), RoundTrip sl →
        RoundTrip (upgradableSpreadLayoutInit sl) := by
  refine ⟨packedLeafLayout_roundTrip, ?_⟩
  intro T sl h v st ptr
  simp only [upgradableSpreadLayoutInit, h v.inner st ptr, Except.map]

/-- Concrete instantiation of C3: pushing `Upgradable.mk 5` at key 17 and
pulling from key 17 returns the same inner value with the cursor advanced
to 18. -/
theorem spread_roundTrip_spec_witness :
    (upgradableSpreadLayoutInit packedLeafLayout).pullSpread
        ((upgradableSpreadLayoutInit packedLeafLayout).pushSpread
          ⟨5⟩ emptyStore ⟨17⟩).1 ⟨17⟩
      = .ok ((⟨5⟩ : Upgradable Nat Initialized), ⟨18⟩) :=
  spread_roundTrip_spec.2 Nat packedLeafLayout packedLeafLayout_roundTrip
    ⟨5⟩ emptyStore ⟨17⟩

/-- Claim C9: the initialization-status marker is storage-transparent: for
both markers the wrapper inherits `FOOTPRINT` and `REQUIRES_DEEP_CLEAN_UP`
unchanged from `T`, and the wrapper's encoding equals the encoding of the
inner value alone. -/
theorem upgradable_marker_transparent (T : Type) (sl : SpreadLayoutImpl T)
    (m : StoreModel T) (alloc : KeyPtr → T × KeyPtr) :
    (upgradableSpreadLayoutInit sl).footprint = sl.footprint
    ∧ (upgradableSpreadLayoutInit sl).requiresDeepCleanUp
      = sl.requiresDeepCleanUp
    ∧ (upgradableSpreadLayoutNotInit m alloc sl).footprint = sl.footprint
    ∧ (upgradableSpreadLayoutNotInit m alloc sl).requiresDeepCleanUp
      = sl.requiresDeepCleanUp
    ∧ ∀ (State : Type) (enc : T → Bytes) (v : T),
        Upgradable.encode enc (⟨v⟩ : Upgradable T State) = enc v := by
  refine ⟨rfl, rfl, rfl, rfl, ?_⟩
  intro State enc v
  simp [Upgradable.encode]

/-- Claim C10: `Upgradable<T, NotInitialized>::pull_spread` allocates a
fresh instance exactly when the store probe reports no entry, fails with
"could not properly decode storage entry" when the probe itself fails to
decode, and pulls the stored value when an entry exists; its `push_spread`
and `clear_spread` agree with the `Initialized` variant, both delegating to
the inner value. -/
theorem upgradable_notInitialized_spec (T : Type) (m : StoreModel T)
    (alloc : KeyPtr → T × KeyPtr) (sl : SpreadLayoutImpl T)
    (st : Store) (ptr : KeyPtr) :
    (getContractStorage m st ptr.key = .error () →
      (upgradableSpreadLayoutNotInit m alloc sl).pullSpread st ptr
        = .error "could not properly decode storage entry")
    ∧ (getContractStorage m st ptr.key = .ok none →
      (upgradableSpreadLayoutNotInit m alloc sl).pullSpread st ptr
        = .ok (⟨(alloc ptr).1⟩, (alloc ptr).2))
    ∧ (∀ v, getContractStorage m st ptr.key = .ok (some v) →
      (upgradableSpreadLayoutNotInit m alloc sl).pullSpread st ptr
        = (sl.pullSpread st ptr).map fun vp => (⟨vp.1⟩, vp.2))
    ∧ (∀ v : T,
      (upgradableSpreadLayoutNotInit m alloc sl).pushSpread ⟨v⟩ st ptr
        = (upgradableSpreadLayoutInit sl).pushSpread ⟨v⟩ st ptr)
    ∧ (∀ v : T,
      (upgradableSpreadLayoutNotInit m alloc sl).clearSpread ⟨v⟩ st ptr
        = (upgradableSpreadLayoutInit sl).clearSpread ⟨v⟩ st ptr) := by
  refine ⟨?_, ?_, ?_, fun _ => rfl, fun _ => rfl⟩
  case _ => intro h; simp [upgradableSpreadLayoutNotInit, h]
  case _ => intro h; simp [upgradableSpreadLayoutNotInit, h]
  case _ => intro v h; simp [upgradableSpreadLayoutNotInit, h]

/-- Concrete instantiation of C10: with the `Nat` model at key 111, a
malformed blob makes `pull_spread` fail with the decode panic message, an
empty slot makes it allocate (allocator yields `0` and advances the
cursor), and a stored `456` is pulled back. -/
theorem upgradable_notInitialized_spec_witness :
    (upgradableSpreadLayoutNotInit natModel
        (fun p => (0, p.advance 1)) packedLeafLayout).pullSpread
        badStore ⟨111⟩
      = .error "could not properly decode storage entry"
    ∧ (upgradableSpreadLayoutNotInit natModel
        (fun p => (0, p.advance 1)) packedLeafLayout).pullSpread
        emptyStore ⟨111⟩
      = .ok ((⟨0⟩ : Upgradable Nat NotInitialized), ⟨112⟩)
    ∧ (upgradableSpreadLayoutNotInit natModel
        (fun p => (0, p.advance 1)) packedLeafLayout).pullSpread
        storeWith456 ⟨111⟩
      = .ok ((⟨456⟩ : Upgradable Nat NotInitialized), ⟨112⟩) :=
  ⟨(upgradable_notInitialized_spec Nat natModel (fun p => (0, p.advance 1))
      packedLeafLayout badStore ⟨111⟩).1 rfl,
   (upgradable_notInitialized_spec Nat natModel (fun p => (0, p.advance 1))
      packedLeafLayout emptyStore ⟨111⟩).2.1 rfl,
   ((upgradable_notInitialized_spec Nat natModel (fun p => (0, p.advance 1))
      packedLeafLayout storeWith456 ⟨111⟩).2.2.1 456 rfl).trans rfl⟩

/-- Modelled from the spec: `Modelled from the spec:` the type descriptors
referenced by layout cells (the `scale-info` descriptor machinery is absent
from the sources); only structural identity matters to the registry. The
constructors cover the types used by the in-repo layout tests. -/
inductive TypeDesc where
  | i32
  | i64
  | boolT
  | tupleT (a b : TypeDesc)
deriving DecidableEq

/-- Modelled from the spec: `Modelled from the spec:` a type registry is a
mapping from descriptor identity to integer handle, insertion order
preserved (§3); here the list of descriptors in first-encounter order, a
descriptor's handle being its index. -/
abbrev Registry := List TypeDesc

/-- First-occurrence handle of a descriptor in the registry, if present. -/
def lookupHandle : Registry → TypeDesc → Option Nat
  | [], _ => none
  | t' :: r, t => if t' = t then some 0 else (lookupHandle r t).map (· + 1)

/-- Modelled from the spec: `Modelled from the spec:` registering a
descriptor: an identical descriptor already present resolves to its
existing handle (first registration wins); a new one is appended and
receives the next handle. -/
def registerType (r : Registry) (t : TypeDesc) : Nat × Registry :=
  match lookupHandle r t with
  | some h => (h, r)
  | none => (r.length, r ++ [t])

/-- The hashers offered for hash-collection key derivation. -/
inductive CryptoHasher where
  | blake2x256
  | sha2x256
  | keccak256
deriving DecidableEq

/-- Metadata name of a hasher, as serialized. -/
def CryptoHasher.render : CryptoHasher → String
  | .blake2x256 => "Blake2x256"
  | .sha2x256 => "Sha2x256"
  | .keccak256 => "Keccak256"

/-- A hashing strategy: hasher identity plus the prefix and postfix byte
strings namespacing derived keys. -/
structure HashingStrategy where
  hasher : CryptoHasher
  preBytes : Bytes
  postBytes : Bytes
deriving DecidableEq

/-!
Modelled from the spec: the layout tree (§3): a tagged variant — cell /
struct / array / enum / hash-collection — with a struct holding an ordered
list of optionally named fields, each field again a layout node, and an
enum holding a dispatch key plus a per-discriminant list of variant field
lists. Lists are inlined as mutual inductives so all recursion stays
structural.
-/
mutual

/-- A layout node. -/
inductive Layout where
  | cell (key : Nat) (ty : TypeDesc)
  | structLayout (fields : FieldList)
  | arrayLayout (offset : Nat) (len : Nat) (cellsPerElem : Nat)
      (inner : Layout)
  | enumLayout (dispatchKey : Nat) (variants : VariantList)
  | hashLayout (offset : Nat) (strategy : HashingStrategy) (inner : Layout)

/-- An ordered list of optionally named fields. -/
inductive FieldList where
  | nil
  | cons (name : Option String) (l : Layout) (rest : FieldList)

/-- A per-discriminant list of enum variant bodies. -/
inductive VariantList where
  | nil
  | cons (discriminant : Nat) (fields : FieldList) (rest : VariantList)

end

/-!
The portable (registry-compacted) layout tree: identical shape, with each
cell's type descriptor replaced by its registry handle.
-/
mutual

/-- A portable layout node. -/
inductive PortableLayout where
  | cell (key : Nat) (ty : Nat)
  | structLayout (fields : PFieldList)
  | arrayLayout (offset : Nat) (len : Nat) (cellsPerElem : Nat)
      (inner : PortableLayout)
  | enumLayout (dispatchKey : Nat) (variants : PVariantList)
  | hashLayout (offset : Nat) (strategy : HashingStrategy)
      (inner : PortableLayout)

/-- A portable field list. -/
inductive PFieldList where
  | nil
  | cons (name : Option String) (l : PortableLayout) (rest : PFieldList)

/-- A portable variant table. -/
inductive PVariantList where
  | nil
  | cons (discriminant : Nat) (fields : PFieldList) (rest : PVariantList)

end

/-!
Modelled from the spec: `into_portable` (§4.5): walk the tree once in
field order, register every cell's type descriptor, replace it by its
handle, and thread the registry through.
-/
mutual

/-- Compact a layout through a registry. -/
def Layout.intoPortable : Layout → Registry → PortableLayout × Registry
  | .cell key ty, r =>
    ((.cell key (registerType r ty).1), (registerType r ty).2)
  | .structLayout fs, r =>
    ((.structLayout (FieldList.intoPortable fs r).1),
      (FieldList.intoPortable fs r).2)
  | .arrayLayout off len cpe inner, r =>
    ((.arrayLayout off len cpe (Layout.intoPortable inner r).1),
      (Layout.intoPortable inner r).2)
  | .enumLayout k vs, r =>
    ((.enumLayout k (VariantList.intoPortable vs r).1),
      (VariantList.intoPortable vs r).2)
  | .hashLayout off strat inner, r =>
    ((.hashLayout off strat (Layout.intoPortable inner r).1),
      (Layout.intoPortable inner r).2)

/-- Compact a field list through a registry, in field order. -/
def FieldList.intoPortable : FieldList → Registry → PFieldList × Registry
  | .nil, r => (.nil, r)
  | .cons name l rest, r =>
    ((.cons name (Layout.intoPortable l r).1
        (FieldList.intoPortable rest (Layout.intoPortable l r).2).1),
      (FieldList.intoPortable rest (Layout.intoPortable l r).2).2)

/-- Compact a variant table through a registry, in declaration order. -/
def VariantList.intoPortable :
    VariantList → Registry → PVariantList × Registry
  | .nil, r => (.nil, r)
  | .cons d fs rest, r =>
    ((.cons d (FieldList.intoPortable fs r).1
        (VariantList.intoPortable rest (FieldList.intoPortable fs r).2).1),
      (VariantList.intoPortable rest (FieldList.intoPortable fs r).2).2)

end

/-- The JSON value model for the serialized metadata. -/
inductive Json where
  | null
  | str (s : String)
  | num (n : Nat)
  | arr (elems : List Json)
  | obj (members : List (String × Json))

/-- Lowercase hexadecimal digit of a nibble. -/
def hexDigit : Nat → Char
  | 0 => '0'
  | 1 => '1'
  | 2 => '2'
  | 3 => '3'
  | 4 => '4'
  | 5 => '5'
  | 6 => '6'
  | 7 => '7'
  | 8 => '8'
  | 9 => '9'
  | 10 => 'a'
  | 11 => 'b'
  | 12 => 'c'
  | 13 => 'd'
  | 14 => 'e'
  | _ => 'f'

/-- The eight hex digits of a 4-byte key, most significant nibble first. -/
def keyHexChars (k : Nat) : List Char :=
  (List.range 8).map fun i => hexDigit (k / 16 ^ (7 - i) % 16)

/-- A layout key serialized for metadata: `0x` followed by the fixed-width
lowercase hexadecimal rendering of the 4-byte key. -/
def keyHex (k : Nat) : String := "0x" ++ String.mk (keyHexChars k)

/-- Two-digit lowercase hexadecimal rendering of one byte. -/
def byteHex (b : Nat) : List Char := [hexDigit (b / 16 % 16), hexDigit (b % 16)]

/-- A byte string serialized for metadata: empty stays empty, otherwise
`0x` followed by two lowercase hex digits per byte. -/
def bytesHex : Bytes → String
  | [] => ""
  | bs => "0x" ++ String.mk (List.flatten (bs.map byteHex))

/-- Field-name serialization: the name, or `null` for unnamed fields. -/
def renderName : Option String → Json
  | some s => .str s
  | none => .null

/-- Hashing-strategy serialization: hasher identity then prefix then
postfix, in that fixed order. -/
def renderStrategy (s : HashingStrategy) : Json :=
  .obj [("hasher", .str s.hasher.render),
        ("prefix", .str (bytesHex s.preBytes)),
        ("postfix", .str (bytesHex s.postBytes))]

/-!
Modelled from the spec: JSON serialization of the portable layout (§6):
cell as key plus type handle, struct as its field list with per-field
layout and name, enum as dispatch key plus a variant table keyed by the
discriminant's decimal string, hash as layout, offset and strategy.
-/
mutual

/-- Serialize a portable layout node. -/
def PortableLayout.render : PortableLayout → Json
  | .cell key h =>
    .obj [("cell", .obj [("key", .str (keyHex key)), ("ty", .num h)])]
  | .structLayout fs =>
    .obj [("struct", .obj [("fields", .arr (PFieldList.render fs))])]
  | .arrayLayout off len cpe inner =>
    .obj [("array", .obj [("offset", .str (keyHex off)), ("len", .num len),
      ("cellsPerElem", .num cpe), ("layout", PortableLayout.render inner)])]
  | .enumLayout k vs =>
    .obj [("enum", .obj [("dispatchKey", .str (keyHex k)),
      ("variants", .obj (PVariantList.render vs))])]
  | .hashLayout off strat inner =>
    .obj [("hash", .obj [("layout", PortableLayout.render inner),
      ("offset", .str (keyHex off)), ("strategy", renderStrategy strat)])]

/-- Serialize a portable field list. -/
def PFieldList.render : PFieldList → List Json
  | .nil => []
  | .cons name l rest =>
    .obj [("layout", PortableLayout.render l), ("name", renderName name)]
      :: PFieldList.render rest

/-- Serialize a portable variant table, keyed by decimal discriminant. -/
def PVariantList.render : PVariantList → List (String × Json)
  | .nil => []
  | .cons d fs rest =>
    (Nat.repr d, .obj [("fields", .arr (PFieldList.render fs))])
      :: PVariantList.render rest

end

/-- Dispatch key of a portable enum node, if the node is an enum. -/
def PortableLayout.dispatchKeyOf : PortableLayout → Option Nat
  | .enumLayout k _ => some k
  | _ => none

/-- Hashing strategy of a portable hash node, if the node is one. -/
def PortableLayout.strategyOf : PortableLayout → Option HashingStrategy
  | .hashLayout _ s _ => some s
  | _ => none

/-- The field list of a struct layout node. -/
def Layout.structFields : Layout → Option FieldList
  | .structLayout fs => some fs
  | _ => none

/-- The field list stored under a discriminant in a variant table. -/
def VariantList.find : VariantList → Nat → Option FieldList
  | .nil, _ => none
  | .cons d fs rest, q => if d = q then some fs else VariantList.find rest q

/-- The field list of an enum layout's variant with the given
discriminant. -/
def Layout.variantFields (l : Layout) (q : Nat) : Option FieldList :=
  match l with
  | .enumLayout _ vs => vs.find q
  | _ => none

/-- The keys of a field list's cell-valued fields, in field order. -/
def FieldList.cellKeys : FieldList → List Nat
  | .nil => []
  | .cons _ (.cell k _) rest => k :: FieldList.cellKeys rest
  | .cons _ _ rest => FieldList.cellKeys rest

/-- The cell keys of every variant body, in declaration order. -/
def VariantList.cellKeys : VariantList → List Nat
  | .nil => []
  | .cons _ fs rest => fs.cellKeys ++ VariantList.cellKeys rest

/-- The cell keys appearing in an enum layout's variant bodies. -/
def Layout.enumVariantCellKeys : Layout → List Nat
  | .enumLayout _ vs => vs.cellKeys
  | _ => []

/-- The struct layout of `named_fields_struct_layout`: field "a" an `i32`
cell and field "b" an `i64` cell, both at the root key. -/
def namedFieldsStructLayout (key : Nat) : Layout :=
  .structLayout (.cons (some "a") (.cell key .i32)
    (.cons (some "b") (.cell key .i64) .nil))

/-- The struct layout of `tuple_struct_layout`: two unnamed cells at the
root key. -/
def tupleStructLayout (key : Nat) : Layout :=
  .structLayout (.cons none (.cell key .i32)
    (.cons none (.cell key .i64) .nil))

/-- The enum layout of `clike_enum_layout`: three empty-bodied variants. -/
def clikeEnumLayout (key : Nat) : Layout :=
  .enumLayout key (.cons 0 .nil (.cons 1 .nil (.cons 2 .nil .nil)))

/-- The enum layout of `mixed_enum_layout`: an empty variant, a tuple-like
variant and a named-field variant, all cells at the root key. -/
def mixedEnumLayout (key : Nat) : Layout :=
  .enumLayout key (.cons 0 .nil
    (.cons 1 (.cons none (.cell key .i32)
      (.cons none (.cell key .i64) .nil))
    (.cons 2 (.cons (some "a") (.cell key .i32)
      (.cons (some "b") (.cell key .i64) .nil)) .nil)))

/-- The ASCII bytes of a string. -/
def strBytes (s : String) : Bytes := s.toList.map Char.toNat

/-- The hash-collection layout of `unbounded_hashing_layout`: Blake2x256
with prefix "ink storage hashmap", empty postfix, and one element cell of
type `(i32, bool)` at the root key. -/
def unboundedHashingLayout (key : Nat) : Layout :=
  .hashLayout key ⟨.blake2x256, strBytes "ink storage hashmap", []⟩
    (.cell key (.tupleT .i32 .boolT))

/-- Claim C4: compacting the named-fields struct layout built from root key
345 through a fresh registry yields two cell fields, both at key 345 with
handles 0 and 1 and names "a" then "b", whose rendering shows cell key
"0x00000159" for both. -/
theorem named_fields_portable_spec :
    Layout.intoPortable (namedFieldsStructLayout 345) []
      = (.structLayout (.cons (some "a") (.cell 345 0)
          (.cons (some "b") (.cell 345 1) .nil)), [.i32, .i64])
    ∧ keyHex 345 = "0x00000159"
    ∧ PortableLayout.render
        (Layout.intoPortable (namedFieldsStructLayout 345) []).1
      = .obj [("struct", .obj [("fields", .arr
          [.obj [("layout", .obj [("cell", .obj [("key", .str "0x00000159"),
              ("ty", .num 0)])]), ("name", .str "a")],
           .obj [("layout", .obj [("cell", .obj [("key", .str "0x00000159"),
              ("ty", .num 1)])]), ("name", .str "b")]])])] :=
  ⟨rfl, rfl, rfl⟩

/-- Claim C5: for every enum layout the portable dispatch key equals the
root key; in the mixed enum built from root key `K` every variant field
cell is keyed `K` and the variant bodies coincide with the struct layouts
built from the same root key; the portable variant table is keyed by the
decimal string of the discriminant; and the three-empty-variant enum at key
123 renders with dispatch key "0x0000007b" and variants "0", "1", "2" with
empty field lists. -/
theorem enum_dispatch_spec :
    (∀ (K : Nat) (vs : VariantList) (r : Registry),
      PortableLayout.dispatchKeyOf
        (Layout.intoPortable (.enumLayout K vs) r).1 = some K)
    ∧ (∀ K : Nat,
        Layout.enumVariantCellKeys (mixedEnumLayout K) = [K, K, K, K])
    ∧ (∀ K : Nat,
        Layout.variantFields (mixedEnumLayout K) 1
          = Layout.structFields (tupleStructLayout K)
        ∧ Layout.variantFields (mixedEnumLayout K) 2
          = Layout.structFields (namedFieldsStructLayout K))
    ∧ (∀ (d : Nat) (fs : FieldList) (rest : VariantList) (r : Registry),
        PVariantList.render (VariantList.intoPortable (.cons d fs rest) r).1
          = (Nat.repr d, .obj [("fields",
              .arr (PFieldList.render (FieldList.intoPortable fs r).1))])
            :: PVariantList.render
                (VariantList.intoPortable rest
                  (FieldList.intoPortable fs r).2).1)
    ∧ keyHex 123 = "0x0000007b"
    ∧ PortableLayout.render (Layout.intoPortable (clikeEnumLayout 123) []).1
      = .obj [("enum", .obj [("dispatchKey", .str "0x0000007b"),
          ("variants", .obj [("0", .obj [("fields", .arr [])]),
                             ("1", .obj [("fields", .arr [])]),
                             ("2", .obj [("fields", .arr [])])])])] :=
  ⟨fun _ _ _ => rfl, fun _ => rfl, fun _ => ⟨rfl, rfl⟩,
   fun _ _ _ _ => rfl, rfl, rfl⟩

/-- `lookupHandle` only returns indices inside the registry. -/
theorem lookupHandle_lt {t : TypeDesc} {h : Nat} {r : Registry}
    (hl : lookupHandle r t = some h) : h < r.length := by
  induction r generalizing h with
  | nil => simp [lookupHandle] at hl
  | cons t' r ih =>
    simp only [lookupHandle] at hl
    split at hl
    · cases hl; simp
    · rcases Option.map_eq_some'.mp hl with ⟨h0, hl0, rfl⟩
      have := ih hl0
      simp only [List.length_cons]
      omega

/-- `lookupHandle` returns an index whose registry entry is the searched
descriptor. -/
theorem lookupHandle_getElem {t : TypeDesc} {h : Nat} {r : Registry}
    (hl : lookupHandle r t = some h) : r[h]? = some t := by
  induction r generalizing h with
  | nil => simp [lookupHandle] at hl
  | cons t' r ih =>
    simp only [lookupHandle] at hl
    split at hl
    next heq => cases hl; simp [heq]
    next =>
      rcases Option.map_eq_some'.mp hl with ⟨h0, hl0, rfl⟩
      simpa using ih hl0

/-- Appending an absent descriptor makes it found at the old length. -/
theorem lookupHandle_append {t : TypeDesc} {r : Registry}
    (hn : lookupHandle r t = none) :
    lookupHandle (r ++ [t]) t = some r.length := by
  induction r with
  | nil => simp [lookupHandle]
  | cons t' r ih =>
    rw [List.cons_append]
    simp only [lookupHandle] at hn ⊢
    split at hn
    · simp at hn
    next hne =>
      rw [if_neg hne, ih (Option.map_eq_none'.mp hn)]
      simp

/-- Registering an already-present descriptor returns its handle and
leaves the registry unchanged. -/
theorem registerType_found {r : Registry} {t : TypeDesc} {h : Nat}
    (hl : lookupHandle r t = some h) : registerType r t = (h, r) := by
  simp [registerType, hl]

/-- Registering an absent descriptor appends it and returns the next
handle. -/
theorem registerType_new {r : Registry} {t : TypeDesc}
    (hl : lookupHandle r t = none) :
    registerType r t = (r.length, r ++ [t]) := by
  simp [registerType, hl]

/-- After registering a descriptor it is found with its handle. -/
theorem registerType_lookup_self (r : Registry) (t : TypeDesc) :
    lookupHandle (registerType r t).2 t = some (registerType r t).1 := by
  cases hl : lookupHandle r t with
  | some h => rw [registerType_found hl]; exact hl
  | none => rw [registerType_new hl]; exact lookupHandle_append hl

/-- Claim C6: registry determinism — re-registering an identical descriptor
returns the first registration's handle and leaves the registry unchanged;
registering a structurally distinct descriptor afterwards yields a distinct
handle; an absent descriptor receives the next handle in first-encounter
order, the first one registered in a fresh registry receiving handle 0. -/
theorem registry_determinism_spec (r : Registry) (t t1 t2 : TypeDesc) :
    (registerType (registerType r t).2 t = registerType r t)
    ∧ (t1 ≠ t2 →
        (registerType (registerType r t1).2 t2).1 ≠ (registerType r t1).1)
    ∧ (lookupHandle r t = none → (registerType r t).1 = r.length)
    ∧ (registerType [] t).1 = 0 := by
  refine ⟨?_, ?_, ?_, rfl⟩
  · cases hl : lookupHandle r t with
    | some h => rw [registerType_found hl]; exact registerType_found hl
    | none =>
      rw [registerType_new hl]
      exact registerType_found (lookupHandle_append hl)
  · intro hne
    have h1 := registerType_lookup_self r t1
    cases hl2 : lookupHandle (registerType r t1).2 t2 with
    | some h2 =>
      rw [registerType_found hl2]
      show h2 ≠ (registerType r t1).1
      intro heq
      have g1 := lookupHandle_getElem h1
      have g2 := lookupHandle_getElem hl2
      rw [heq, g1] at g2
      exact hne (Option.some.inj g2)
    | none =>
      rw [registerType_new hl2]
      show (registerType r t1).2.length ≠ (registerType r t1).1
      have := lookupHandle_lt h1
      omega
  · intro hn
    rw [registerType_new hn]

/-- Concrete instantiation of C6 with the descriptors `i32` and `i64`. -/
theorem registry_determinism_spec_witness :
    (registerType (registerType [] TypeDesc.i32).2 TypeDesc.i32
      = registerType [] TypeDesc.i32)
    ∧ ((registerType (registerType [] TypeDesc.i32).2 TypeDesc.i64).1
      ≠ (registerType [] TypeDesc.i32).1)
    ∧ (registerType [] TypeDesc.i32).1 = ([] : Registry).length
    ∧ (registerType [] TypeDesc.i64).1 = 0 :=
  ⟨(registry_determinism_spec [] .i32 .i32 .i64).1,
   (registry_determinism_spec [] .i32 .i32 .i64).2.1 (by decide),
   (registry_determinism_spec [] .i32 .i32 .i64).2.2.1 rfl,
   (registry_determinism_spec [] .i64 .i32 .i64).2.2.2⟩

/-- Claim C7: compaction leaves a hash-collection's hashing strategy
unchanged; the strategy serializes as hasher, then prefix, then postfix, in
that fixed order; and the unbounded hashmap layout at key 567 renders with
hasher "Blake2x256", prefix "0x696e6b2073746f7261676520686173686d6170" and
empty postfix. -/
theorem hash_strategy_spec :
    (∀ (off : Nat) (strat : HashingStrategy) (inner : Layout)
        (r : Registry),
      PortableLayout.strategyOf
        (Layout.intoPortable (.hashLayout off strat inner) r).1 = some strat)
    ∧ (∀ strat : HashingStrategy, renderStrategy strat
        = .obj [("hasher", .str strat.hasher.render),
                ("prefix", .str (bytesHex strat.preBytes)),
                ("postfix", .str (bytesHex strat.postBytes))])
    ∧ PortableLayout.render
        (Layout.intoPortable (unboundedHashingLayout 567) []).1
      = .obj [("hash", .obj [
          ("layout", .obj [("cell", .obj [("key", .str "0x00000237"),
            ("ty", .num 0)])]),
          ("offset", .str "0x00000237"),
          ("strategy", .obj [("hasher", .str "Blake2x256"),
            ("prefix", .str "0x696e6b2073746f7261676520686173686d6170"),
            ("postfix", .str "")])])] :=
  ⟨fun _ _ _ _ => rfl, fun _ => rfl, rfl⟩

/-- Claim C8, counterexample: the metadata serialization of key 1 is
"0x00000001" — ten characters, the 0x-prefixed rendering of a 4-byte key —
not the 66-character rendering a 32-byte key would produce. -/
theorem layout_key_width_counterexample :
    keyHex 1 = "0x00000001"
    ∧ (keyHex 1).length = 10
    ∧ (keyHex 1).length ≠ 2 + 64 :=
  ⟨rfl, rfl, by decide⟩

/-- Every nibble renders as a lowercase hexadecimal digit. -/
theorem hexDigit_mem (n : Nat) : hexDigit n ∈ "0123456789abcdef".toList := by
  match n with
  | 0 | 1 | 2 | 3 | 4 | 5 | 6 | 7 | 8 | 9 | 10 | 11 | 12 | 13 | 14 => decide
  | n + 15 =>
    show 'f' ∈ _
    decide

/-- Claim C8 (amended): every storage key is a fixed-width 4-byte
identifier; its metadata rendering is "0x" followed by exactly eight
lowercase hexadecimal digits, and the rendering of key 1 is
"0x00000001". -/
theorem layout_key_rendering_spec (k : Nat) :
    (keyHex k).data = '0' :: 'x' :: keyHexChars k
    ∧ (keyHexChars k).length = 8
    ∧ (∀ c ∈ keyHexChars k, c ∈ "0123456789abcdef".toList)
    ∧ keyHex 1 = "0x00000001" := by
  refine ⟨rfl, by simp [keyHexChars], ?_, rfl⟩
  intro c hc
  simp only [keyHexChars, List.mem_map] at hc
  obtain ⟨i, _, rfl⟩ := hc
  exact hexDigit_mem _

/-- Concrete instantiation of C8 (amended) at key 1 and its first rendered
digit. -/
theorem layout_key_rendering_spec_witness :
    (keyHex 1).data = '0' :: 'x' :: keyHexChars 1
    ∧ '0' ∈ "0123456789abcdef".toList :=
  ⟨(layout_key_rendering_spec 1).1,
   (layout_key_rendering_spec 1).2.2.1 '0' (by decide)⟩

end Ink
